import Mathlib

/-!
Verification of the tax_master repository (src/tax_rules.py and src/main.py).

Monetary values are embedded as exact rationals (ℚ).  Python's
`round(x, 2)` is embedded as `round2`, rounding to the nearest multiple of
1/100 (ties rounded up, via Mathlib's `round`); the claims under study are
about the exact decimal arithmetic the specification describes, and every
verdict below is insensitive to the tie-breaking direction.  `str.upper()`
is embedded for the ASCII alphabet via `Char.toUpper`.
-/

namespace TaxMaster

/-- Embedding of Python's `round(x, 2)`: round to the nearest cent. -/
def round2 (x : ℚ) : ℚ := ((round (x * 100) : ℤ) : ℚ) / 100

/-- Embedding of Python's `str.upper()` on the ASCII alphabet. -/
def upper (s : String) : String := ⟨s.data.map Char.toUpper⟩

/-- `INDIA_TAX_RATE = 0.10` (src/tax_rules.py line 17). -/
def INDIA_TAX_RATE : ℚ := 1 / 10

/-- `INDIA_TAX_THRESHOLD = 2000` (src/tax_rules.py line 18). -/
def INDIA_TAX_THRESHOLD : ℚ := 2000

/-- `calculate_tax_amount` (src/tax_rules.py lines 21-50): the tax is
computed from the unrounded product `item_rate * item_quantity` and rounded
once at the return. -/
def calculate_tax_amount (item_rate : ℚ) (item_quantity : ℤ) (country_code : String) : ℚ :=
  let item_amount : ℚ := item_rate * item_quantity
  let tax_amount : ℚ :=
    if upper country_code = "INDIA" then
      if item_rate > INDIA_TAX_THRESHOLD then item_amount * INDIA_TAX_RATE else 0
    else 0
  round2 tax_amount

/-- `calculate_total_amount` (src/tax_rules.py lines 53-67): recomputes the
unrounded item amount and rounds the sum with the tax once. -/
def calculate_total_amount (item_rate : ℚ) (item_quantity : ℤ) (tax_amount : ℚ) : ℚ :=
  let item_amount : ℚ := item_rate * item_quantity
  round2 (item_amount + tax_amount)

/-- `get_tax_status` (src/tax_rules.py lines 70-87). -/
def get_tax_status (item_rate : ℚ) (country_code : String) : String :=
  if upper country_code = "INDIA" then
    if item_rate > INDIA_TAX_THRESHOLD then "Taxable" else "Tax-Exempt"
  else "Tax-Exempt"

/-- `round2` fixes 0. -/
lemma round2_zero : round2 0 = 0 := by
  simp [round2]

/-- `round2` fixes every integer multiple of a cent. -/
lemma round2_cents (n : ℤ) : round2 ((n : ℚ) / 100) = (n : ℚ) / 100 := by
  unfold round2
  rw [div_mul_cancel₀ _ (by norm_num : (100 : ℚ) ≠ 0)]
  rw [round_intCast]

/-- Adding an exact number of cents commutes with `round2`. -/
lemma round2_add_cents (x : ℚ) (n : ℤ) :
    round2 (x + (n : ℚ) / 100) = round2 x + (n : ℚ) / 100 := by
  unfold round2
  have h : (x + (n : ℚ) / 100) * 100 = x * 100 + (n : ℤ) := by ring
  rw [h, round_add_int]
  push_cast [add_div]
  ring

/-- Every value `round2` produces is an exact number of cents. -/
lemma round2_eq_cents (x : ℚ) : ∃ n : ℤ, round2 x = (n : ℚ) / 100 :=
  ⟨round (x * 100), rfl⟩

/-- `round2` dominates any integer lower bound of its argument. -/
lemma round2_ge (x : ℚ) (n : ℤ) (h : (n : ℚ) ≤ x) : (n : ℚ) ≤ round2 x := by
  unfold round2
  have h1 : (100 * n : ℤ) ≤ round (x * 100) := by
    rw [round_eq]
    apply Int.le_floor.mpr
    push_cast
    nlinarith
  have h2 : ((100 * n : ℤ) : ℚ) ≤ ((round (x * 100) : ℤ) : ℚ) := by exact_mod_cast h1
  push_cast at h2
  linarith

/-- A tax amount produced by `calculate_tax_amount` is an exact number of
cents. -/
lemma calculate_tax_amount_eq_cents (r : ℚ) (q : ℤ) (c : String) :
    ∃ n : ℤ, calculate_tax_amount r q c = (n : ℚ) / 100 :=
  round2_eq_cents _

/-- Numeric value of a list of decimal digit characters. -/
def digitsToNat (cs : List Char) : ℕ :=
  cs.foldl (fun a c => 10 * a + (c.toNat - '0'.toNat)) 0

/-- Accepts a non-empty all-digit character list. -/
def parseDigits (cs : List Char) : Option ℕ :=
  if cs ≠ [] ∧ cs.all Char.isDigit then some (digitsToNat cs) else none

/-- Splits a character list at the first `'.'`, reporting whether a dot was
present. -/
def splitOnDot : List Char → List Char × Option (List Char)
  | [] => ([], none)
  | c :: t =>
    if c = '.' then ([], some t)
    else
      let p := splitOnDot t
      (c :: p.1, p.2)

/-- Strips one optional leading sign, returning the sign as a rational
factor. -/
def stripSign (cs : List Char) : ℚ × List Char :=
  match cs with
  | '-' :: t => (-1, t)
  | '+' :: t => (1, t)
  | _ => (1, cs)

/-- Embedding of Python's `float()` on plain signed decimal literals (the
shapes `d+`, `d+.d*`, `.d+`, optionally signed).  Exponents, `inf`/`nan`,
underscores and surrounding whitespace are outside the fragment the claims
exercise and are not modelled. -/
def parseFloat (s : String) : Option ℚ :=
  let p := stripSign s.data
  match splitOnDot p.2 with
  | (ip, none) => (parseDigits ip).map (fun n => p.1 * n)
  | (ip, some fp) =>
    if (ip ≠ [] ∨ fp ≠ []) ∧ ip.all Char.isDigit ∧ fp.all Char.isDigit then
      some (p.1 * ((digitsToNat ip : ℚ) + (digitsToNat fp : ℚ) / 10 ^ fp.length))
    else none

/-- Embedding of Python's `int()` on plain signed decimal integer literals. -/
def parseInt (s : String) : Option ℤ :=
  let p := stripSign s.data
  (parseDigits p.2).map (fun n => if p.1 = -1 then -(n : ℤ) else (n : ℤ))

/-- A raw sales row of the jurisdiction pipeline, as handed to
`update_sales_record_with_tax`: the three fields the function reads, each
`none` when the column is absent (a lookup then raises `KeyError`).
Passthrough columns (date, customer, item name) are not read by the
computation and are omitted. -/
structure SalesRecord where
  itemRate : Option String
  itemQuantity : Option String
  countryCode : Option String
deriving DecidableEq

/-- A record as returned by `update_sales_record_with_tax`: the parsed input
fields together with the three computed monetary columns. -/
structure EnrichedRecord where
  itemRate : ℚ
  itemQuantity : ℤ
  countryCode : String
  itemAmount : ℚ
  taxAmount : ℚ
  totalAmount : ℚ
deriving DecidableEq

/-- Body of `update_sales_record_with_tax` after the three fields have been
read and parsed (src/tax_rules.py lines 107-117): `item_amount` is rounded
at line 108, the other two columns come from the two calculation
functions. -/
def enrich (item_rate : ℚ) (item_quantity : ℤ) (country_code : String) : EnrichedRecord :=
  let item_amount := round2 (item_rate * item_quantity)
  let tax_amount := calculate_tax_amount item_rate item_quantity country_code
  let total_amount := calculate_total_amount item_rate item_quantity tax_amount
  ⟨item_rate, item_quantity, country_code, item_amount, tax_amount, total_amount⟩

/-- `update_sales_record_with_tax` (src/tax_rules.py lines 90-120): reads
`Item Rate`, `Item Quantity` and `Country Code` in that order; a missing
field (`KeyError`) or a failed parse (`ValueError`) is caught and the
function returns `None`. -/
def update_sales_record_with_tax (record : SalesRecord) : Option EnrichedRecord := do
  let rs ← record.itemRate
  let item_rate ← parseFloat rs
  let qs ← record.itemQuantity
  let item_quantity ← parseInt qs
  let country_code ← record.countryCode
  some (enrich item_rate item_quantity country_code)

/-- Pre-tax sum of a list of enriched lines. -/
def sum_item (es : List EnrichedRecord) : ℚ :=
  es.foldr (fun e a => e.itemAmount + a) 0

/-- Tax sum of a list of enriched lines. -/
def sum_tax (es : List EnrichedRecord) : ℚ :=
  es.foldr (fun e a => e.taxAmount + a) 0

/-- Modelled from the spec: the Line Aggregator's skip-and-continue batch
pass over `update_sales_record_with_tax` ("accumulate: running pre-tax sum
+= item_amount; running tax sum += tax_amount"; "a malformed line ... is
reported and excluded from aggregation; it does not halt processing of
subsequent lines").  The loop that drives the jurisdiction pipeline is not
among the repository's source files; only the per-line function is. -/
def process_batch : List SalesRecord → List EnrichedRecord × ℚ × ℚ
  | [] => ([], 0, 0)
  | r :: rest =>
    match update_sales_record_with_tax r with
    | none => process_batch rest
    | some e =>
      let p := process_batch rest
      (e :: p.1, e.itemAmount + p.2.1, e.taxAmount + p.2.2)

/-- Modelled from the spec: the per-jurisdiction report bucket ("category
bucket (keyed by the line's category or jurisdiction depending on which
pipeline) increments count by 1, sales by item_amount, tax by tax_amount");
like the batch loop, the jurisdiction pipeline's report pass is not among
the repository's source files. -/
def jurisdiction_bucket (es : List EnrichedRecord) (cc : String) : ℕ × ℚ × ℚ :=
  let sel := es.filter (fun e => e.countryCode = cc)
  (sel.length, sum_item sel, sum_tax sel)

/-- A raw transaction row of the category pipeline, as consumed by
`process_sales` in src/main.py; each field is `none` when the column is
absent (`dict.get` then supplies a default). -/
structure TxRecord where
  transaction_id : Option String
  amount : Option String
  category : Option String
deriving DecidableEq

/-- A processed transaction as appended by `process_sales`
(src/main.py lines 73-80). -/
structure ProcessedRecord where
  transaction_id : String
  amount : ℚ
  category : String
  tax_rate : ℚ
  tax_amount : ℚ
  total_amount : ℚ
deriving DecidableEq

/-- Modelled from the spec: `TaxCalculator.calculate_tax`, the category
resolver src/main.py imports from tax_rules; the class is not among the
repository's source files.  Per the spec it is a "flat lookup table with a
default fallback when a category is unrecognized", so an unrecognized
category uses `defaultRate` rather than raising.  The table `TAX_RATES` is
likewise absent from the sources and is passed as an explicit association
list. -/
def calculator_calculate_tax (table : List (String × ℚ)) (defaultRate : ℚ)
    (amount : ℚ) (category : String) : ℚ :=
  amount * ((table.lookup category).getD defaultRate)

/-- Loop body of `process_sales` (src/main.py lines 62-92) for one record:
`float(record.get('amount', 0))` parses the amount (a missing column
defaults to `0`), the category defaults to `"standard"`, and the record
dictionary built at lines 73-80 evaluates `TAX_RATES['standard']` eagerly
as the second argument of `TAX_RATES.get`, so a table without a
`"standard"` key raises `KeyError` there; `ValueError`/`KeyError` are
caught by the `except` and the row yields `none`. -/
def process_one (table : List (String × ℚ)) (defaultRate : ℚ)
    (r : TxRecord) : Option ProcessedRecord := do
  let tid := r.transaction_id.getD "N/A"
  let amount ← match r.amount with
    | none => some 0
    | some s => parseFloat s
  let category := r.category.getD "standard"
  let tax_amount := calculator_calculate_tax table defaultRate amount category
  let total_amount := amount + tax_amount
  let std ← table.lookup "standard"
  let tax_rate := (table.lookup category).getD std
  some ⟨tid, amount, category, tax_rate, tax_amount, total_amount⟩

/-- `process_sales` (src/main.py lines 43-94): the per-record loop with its
skip-and-continue `except`, accumulating `total_sales` and `total_tax` over
the successfully processed records only. -/
def process_sales (table : List (String × ℚ)) (defaultRate : ℚ) :
    List TxRecord → List ProcessedRecord × ℚ × ℚ
  | [] => ([], 0, 0)
  | r :: rest =>
    match process_one table defaultRate r with
    | none => process_sales table defaultRate rest
    | some p =>
      let pr := process_sales table defaultRate rest
      (p :: pr.1, p.amount + pr.2.1, p.tax_amount + pr.2.2)

/-- Rate displayed per category by `generate_report`
(src/main.py line 136): `TAX_RATES.get(category, 0)`. -/
def report_rate (table : List (String × ℚ)) (category : String) : ℚ :=
  (table.lookup category).getD 0

/-- `load_sales_data` of src/main.py (lines 16-40): the input source is
abstracted as `none` (file missing) or `some rows`; `FileNotFoundError`
triggers `sys.exit(1)`, embedded as `Except.error 1`. -/
def load_sales_data_main (fs : Option (List TxRecord)) : Except ℕ (List TxRecord) :=
  match fs with
  | none => Except.error 1
  | some rows => Except.ok rows

/-- `load_sales_data` of src/tax_rules.py (lines 123-148): a missing file
only prints a warning and yields the empty list (this variant has no caller
in the sources; the entry point uses the one in src/main.py). -/
def load_sales_data_tax_rules (fs : Option (List SalesRecord)) : List SalesRecord :=
  fs.getD []

/-- `main` of src/main.py (lines 141-165) up to the report: loading aborts
the whole run with exit code 1 when the source file is missing; otherwise
the rows are processed by `process_sales`. -/
def run_main (table : List (String × ℚ)) (defaultRate : ℚ)
    (fs : Option (List TxRecord)) : Except ℕ (List ProcessedRecord × ℚ × ℚ) :=
  match load_sales_data_main fs with
  | Except.error code => Except.error code
  | Except.ok rows => Except.ok (process_sales table defaultRate rows)

/-- Unfolding of `process_batch`: the processed lines are exactly the rows
on which `update_sales_record_with_tax` succeeds, and the running totals
are the sums over those lines. -/
lemma process_batch_eq (rows : List SalesRecord) :
    process_batch rows =
      (rows.filterMap update_sales_record_with_tax,
       sum_item (rows.filterMap update_sales_record_with_tax),
       sum_tax (rows.filterMap update_sales_record_with_tax)) := by
  induction rows with
  | nil => rfl
  | cons r rest ih =>
    cases h : update_sales_record_with_tax r with
    | none => simp [process_batch, h, List.filterMap_cons, ih]
    | some e => simp [process_batch, h, List.filterMap_cons, ih, sum_item, sum_tax]

/-- Dropping a row on which `update_sales_record_with_tax` fails does not
change the result of the batch pass. -/
lemma process_batch_skip (pre suf : List SalesRecord) (bad : SalesRecord)
    (h : update_sales_record_with_tax bad = none) :
    process_batch (pre ++ bad :: suf) = process_batch (pre ++ suf) := by
  rw [process_batch_eq, process_batch_eq]
  simp [List.filterMap_append, List.filterMap_cons, h]

/-- The three stored amounts of an enriched line: the total is the sum of
the other two because the tax is an exact number of cents and `round2`
commutes with adding cents. -/
lemma enrich_total (r : ℚ) (q : ℤ) (c : String) :
    (enrich r q c).totalAmount = (enrich r q c).itemAmount + (enrich r q c).taxAmount := by
  obtain ⟨n, hn⟩ := calculate_tax_amount_eq_cents r q c
  show calculate_total_amount r q (calculate_tax_amount r q c)
      = round2 (r * q) + calculate_tax_amount r q c
  unfold calculate_total_amount
  rw [hn, round2_add_cents]

/-- C1: for jurisdiction INDIA (case-insensitively) and `rate_per_unit`
strictly above 2000 the tax is `round(rate × quantity × 0.10, 2)`, and at
exactly 2000 the tax is 0. -/
theorem calculate_tax_amount_india_above_threshold (rate : ℚ) (qty : ℤ) (cc : String) :
    (upper cc = "INDIA" → 2000 < rate →
      calculate_tax_amount rate qty cc = round2 (rate * qty * (1 / 10))) ∧
    calculate_tax_amount 2000 qty cc = 0 := by
  constructor
  · intro h1 h2
    simp [calculate_tax_amount, h1, INDIA_TAX_THRESHOLD, INDIA_TAX_RATE, gt_iff_lt, h2]
  · simp [calculate_tax_amount, INDIA_TAX_THRESHOLD, gt_iff_lt, lt_irrefl, round2_zero]

/-- C4: any rate at most 2000 is tax-exempt in every jurisdiction, and any
jurisdiction other than INDIA (case-insensitively) is tax-exempt at every
rate. -/
theorem calculate_tax_amount_exempt (rate : ℚ) (qty : ℤ) (cc : String) :
    (rate ≤ 2000 → calculate_tax_amount rate qty cc = 0) ∧
    (upper cc ≠ "INDIA" → calculate_tax_amount rate qty cc = 0) := by
  constructor
  · intro h
    have h2 : ¬ INDIA_TAX_THRESHOLD < rate := by
      rw [INDIA_TAX_THRESHOLD]; exact not_lt.mpr h
    simp [calculate_tax_amount, gt_iff_lt, h2, round2_zero]
  · intro h
    simp [calculate_tax_amount, h, round2_zero]

/-- C3: every enriched line a successful run of
`update_sales_record_with_tax` produces satisfies
`total_amount = item_amount + tax_amount` on the stored rounded values. -/
theorem update_sales_record_total_invariant (record : SalesRecord) (e : EnrichedRecord)
    (h : update_sales_record_with_tax record = some e) :
    e.totalAmount = e.itemAmount + e.taxAmount := by
  simp only [update_sales_record_with_tax, bind, Option.bind_eq_some] at h
  obtain ⟨rs, _, rate, _, qs, _, qty, _, c, _, he⟩ := h
  obtain rfl : enrich rate qty c = e := by exact_mod_cast Option.some.inj he
  exact enrich_total rate qty c

/-- Witness for C3 at the concrete row (2500, 1, INDIA). -/
theorem update_sales_record_total_invariant_witness :
    (⟨2500, 1, "INDIA", 2500, 250, 2750⟩ : EnrichedRecord).totalAmount =
      (⟨2500, 1, "INDIA", 2500, 250, 2750⟩ : EnrichedRecord).itemAmount +
      (⟨2500, 1, "INDIA", 2500, 250, 2750⟩ : EnrichedRecord).taxAmount :=
  update_sales_record_total_invariant ⟨some "2500", some "1", some "INDIA"⟩ _
    (by
      simp +decide [update_sales_record_with_tax, enrich, calculate_tax_amount,
        calculate_total_amount, parseFloat, parseInt, stripSign, splitOnDot,
        parseDigits, digitsToNat, upper, INDIA_TAX_RATE, INDIA_TAX_THRESHOLD,
        round2, round_eq]
      norm_num [EnrichedRecord.mk.injEq])

/-- C2 as stated is false: at rate 2500.049, quantity 1, jurisdiction
INDIA, the code stores `tax_amount = round(2500.049 × 0.10, 2) = 250.00`
from the unrounded product, while the claim's
`round(item_amount × 0.10, 2)` on the already-rounded
`item_amount = 2500.05` is 250.01. -/
theorem tax_from_rounded_item_counterexample :
    (enrich (2500049 / 1000) 1 "INDIA").taxAmount ≠
      round2 ((enrich (2500049 / 1000) 1 "INDIA").itemAmount * (1 / 10)) := by
  have h1 : (enrich (2500049 / 1000) 1 "INDIA").taxAmount = 250 := by
    simp +decide [enrich, calculate_tax_amount, upper, INDIA_TAX_RATE,
      INDIA_TAX_THRESHOLD, round2, round_eq]
    norm_num
  have h2 : (enrich (2500049 / 1000) 1 "INDIA").itemAmount = 250005 / 100 := by
    simp +decide [enrich, round2, round_eq]
    norm_num
  rw [h1, h2]
  unfold round2
  rw [round_eq]
  norm_num

/-- C2 amended: `item_amount` is `round(rate × quantity, 2)`; the tax is
computed from the UNROUNDED product, `round(rate × quantity × 0.10, 2)`
when taxable and 0 otherwise; the stored total still equals
`round(item_amount + tax_amount, 2)` on the rounded fields, because the
code's `round(rate × quantity + tax_amount, 2)` coincides with it. -/
theorem enrich_field_formulas (rate : ℚ) (qty : ℤ) (cc : String) :
    (enrich rate qty cc).itemAmount = round2 (rate * qty) ∧
    (upper cc = "INDIA" → 2000 < rate →
      (enrich rate qty cc).taxAmount = round2 (rate * qty * (1 / 10))) ∧
    (¬(upper cc = "INDIA" ∧ 2000 < rate) → (enrich rate qty cc).taxAmount = 0) ∧
    (enrich rate qty cc).totalAmount =
      round2 ((enrich rate qty cc).itemAmount + (enrich rate qty cc).taxAmount) := by
  refine ⟨rfl, ?_, ?_, ?_⟩
  · intro h1 h2
    show calculate_tax_amount rate qty cc = _
    simp [calculate_tax_amount, h1, INDIA_TAX_THRESHOLD, INDIA_TAX_RATE, gt_iff_lt, h2]
  · intro h
    show calculate_tax_amount rate qty cc = 0
    by_cases h1 : upper cc = "INDIA"
    · have h2 : ¬ INDIA_TAX_THRESHOLD < rate := by
        rw [INDIA_TAX_THRESHOLD]
        exact fun hlt => h ⟨h1, hlt⟩
      simp [calculate_tax_amount, h1, gt_iff_lt, h2, round2_zero]
    · simp [calculate_tax_amount, h1, round2_zero]
  · obtain ⟨n, hn⟩ := calculate_tax_amount_eq_cents rate qty cc
    obtain ⟨m, hm⟩ := round2_eq_cents (rate * qty)
    show calculate_total_amount rate qty (calculate_tax_amount rate qty cc)
        = round2 (round2 (rate * qty) + calculate_tax_amount rate qty cc)
    unfold calculate_total_amount
    rw [hn, hm, round2_add_cents, div_add_div_same]
    have hcast : ((m : ℚ) + n) = ((m + n : ℤ) : ℚ) := by push_cast; ring
    rw [hcast, round2_cents, hm]
    push_cast
    ring

/-- C5: the three-row scenario (2500, 1, INDIA), (1000, 3, INDIA),
(500, 2, USA) yields per-line (tax, total) of (250, 2750), (0, 3000),
(0, 1000), batch pre-tax total 6500, tax total 250, and revenue
6500 + 250 = 6750. -/
theorem scenario_three_rows :
    process_batch
        [⟨some "2500", some "1", some "INDIA"⟩,
         ⟨some "1000", some "3", some "INDIA"⟩,
         ⟨some "500", some "2", some "USA"⟩] =
      ([⟨2500, 1, "INDIA", 2500, 250, 2750⟩,
        ⟨1000, 3, "INDIA", 3000, 0, 3000⟩,
        ⟨500, 2, "USA", 1000, 0, 1000⟩], 6500, 250) ∧
    (6500 : ℚ) + 250 = 6750 := by
  constructor
  · simp +decide [process_batch, update_sales_record_with_tax, enrich,
      calculate_tax_amount, calculate_total_amount, parseFloat, parseInt,
      stripSign, splitOnDot, parseDigits, digitsToNat, upper,
      INDIA_TAX_RATE, INDIA_TAX_THRESHOLD, round2, round_eq]
    norm_num [EnrichedRecord.mk.injEq, Prod.ext_iff]
  · norm_num

/-- C6: a row on which `update_sales_record_with_tax` fails (unparseable
rate or quantity, or a missing field) is skipped without halting the
batch: the batch result with the bad row equals the result without it, the
processed lines are exactly the successfully processed rows, the totals
are the sums over those rows alone, and every jurisdiction bucket is
unchanged. -/
theorem process_batch_isolates_malformed (pre suf : List SalesRecord) (bad : SalesRecord)
    (h : update_sales_record_with_tax bad = none) :
    process_batch (pre ++ bad :: suf) = process_batch (pre ++ suf) ∧
    (process_batch (pre ++ bad :: suf)).1 =
      (pre ++ suf).filterMap update_sales_record_with_tax ∧
    (process_batch (pre ++ bad :: suf)).2.1 =
      sum_item ((pre ++ suf).filterMap update_sales_record_with_tax) ∧
    (process_batch (pre ++ bad :: suf)).2.2 =
      sum_tax ((pre ++ suf).filterMap update_sales_record_with_tax) ∧
    ∀ cc, jurisdiction_bucket (process_batch (pre ++ bad :: suf)).1 cc =
      jurisdiction_bucket ((pre ++ suf).filterMap update_sales_record_with_tax) cc := by
  have hs := process_batch_skip pre suf bad h
  have he := process_batch_eq (pre ++ suf)
  rw [hs, he]
  simp

/-- Witness for C6: a row with the unparseable rate "abc" between two
well-formed rows is skipped and the batch result matches the batch without
it. -/
theorem process_batch_isolates_malformed_witness :
    process_batch
        [⟨some "2500", some "1", some "INDIA"⟩,
         ⟨some "abc", some "1", some "USA"⟩,
         ⟨some "500", some "2", some "USA"⟩] =
      process_batch
        [⟨some "2500", some "1", some "INDIA"⟩,
         ⟨some "500", some "2", some "USA"⟩] :=
  (process_batch_isolates_malformed
    [⟨some "2500", some "1", some "INDIA"⟩]
    [⟨some "500", some "2", some "USA"⟩]
    ⟨some "abc", some "1", some "USA"⟩
    (by decide)).1

/-- Failure condition of the Rate Resolver as the spec words it (for
comparison with the code): the rate cannot be parsed as a NON-NEGATIVE
decimal, or the jurisdiction is absent or empty. -/
def invalid_input_per_spec (r : SalesRecord) : Prop :=
  (match r.itemRate with
   | none => True
   | some s =>
     match parseFloat s with
     | none => True
     | some q => q < 0) ∨
  r.countryCode = none ∨ r.countryCode = some ""

/-- C7 as stated is false: the record with rate "100", quantity "1" and an
EMPTY country code satisfies the spec's InvalidInput condition, yet
`update_sales_record_with_tax` processes it successfully (the empty string
is simply not INDIA, so the line is tax-exempt, not an error). -/
theorem invalid_input_condition_counterexample :
    ¬ (update_sales_record_with_tax ⟨some "100", some "1", some ""⟩ = none ↔
        invalid_input_per_spec ⟨some "100", some "1", some ""⟩) := by
  have h3 : (update_sales_record_with_tax ⟨some "100", some "1", some ""⟩).isSome = true := by
    decide
  intro h
  have h1 : invalid_input_per_spec ⟨some "100", some "1", some ""⟩ := by
    right; right; rfl
  rw [h.mpr h1] at h3
  simp at h3

/-- C7 amended: `update_sales_record_with_tax` fails (returns `None`, the
line is skipped) exactly when the rate field is absent or unparseable as a
signed decimal, the quantity field is absent or unparseable as an integer,
or the country-code field is absent; an empty country code and a negative
rate are accepted.  On failure the batch pass continues unchanged over the
remaining rows. -/
theorem update_sales_record_failure_condition (r : SalesRecord) :
    (update_sales_record_with_tax r = none ↔
      r.itemRate = none ∨
      (∃ s, r.itemRate = some s ∧ parseFloat s = none) ∨
      r.itemQuantity = none ∨
      (∃ s, r.itemQuantity = some s ∧ parseInt s = none) ∨
      r.countryCode = none) ∧
    (update_sales_record_with_tax r = none →
      ∀ pre suf, process_batch (pre ++ r :: suf) = process_batch (pre ++ suf)) := by
  refine ⟨?_, fun h pre suf => process_batch_skip pre suf r h⟩
  obtain ⟨ir, iq, cc⟩ := r
  cases ir with
  | none => simp [update_sales_record_with_tax]
  | some s =>
    cases hp : parseFloat s with
    | none => simp [update_sales_record_with_tax, hp]
    | some q =>
      cases iq with
      | none => simp [update_sales_record_with_tax, hp]
      | some t =>
        cases hq : parseInt t with
        | none => simp [update_sales_record_with_tax, hp, hq]
        | some z =>
          cases cc with
          | none => simp [update_sales_record_with_tax, hp, hq]
          | some c => simp [update_sales_record_with_tax, hp, hq]

/-- C8: a missing input source file is fatal for the run driven by
src/main.py: `load_sales_data` exits with code 1, so the whole run aborts
with a non-zero code and produces no processed records or totals. -/
theorem run_main_missing_file_fatal (table : List (String × ℚ)) (defaultRate : ℚ) :
    run_main table defaultRate none = Except.error 1 ∧ (1 : ℕ) ≠ 0 :=
  ⟨rfl, by decide⟩

/-- C9 as stated is false when the default category "standard" itself has
no entry in the rate table: the dictionary built by `process_sales`
evaluates `TAX_RATES['standard']` eagerly, so the lookup raises `KeyError`
and the row is skipped instead of falling back. -/
theorem category_fallback_counterexample :
    List.lookup "standard" [("food", (1 : ℚ) / 20)] = none ∧
    process_one [("food", (1 : ℚ) / 20)] (1 / 10)
      ⟨some "t1", some "100", some "standard"⟩ = none := by
  constructor
  · decide
  · decide

/-- C9 amended: provided the table has an entry for the default category
"standard", every transaction whose category has no explicit entry is
processed without error — the modelled calculator falls back to its
default percentage, the stored `tax_rate` falls back to the "standard"
entry — and the per-category report shows a rate (0) for that category.
When "standard" itself has no entry, every row is skipped instead (see the
counterexample). -/
theorem category_fallback (table : List (String × ℚ)) (defaultRate stdRate a : ℚ)
    (tid : Option String) (s cat : String)
    (h1 : parseFloat s = some a)
    (h2 : List.lookup cat table = none)
    (h3 : List.lookup "standard" table = some stdRate) :
    process_one table defaultRate ⟨tid, some s, some cat⟩ =
      some ⟨tid.getD "N/A", a, cat, stdRate, a * defaultRate, a + a * defaultRate⟩ ∧
    report_rate table cat = 0 := by
  constructor
  · simp [process_one, calculator_calculate_tax, h1, h2, h3]
  · simp [report_rate, h2]

/-- Witness for C9 at a table carrying only the "standard" entry and the
unrecognized category "luxury". -/
theorem category_fallback_witness :
    process_one [("standard", (1 : ℚ) / 10)] (1 / 10)
        ⟨none, some "100", some "luxury"⟩ =
      some ⟨"N/A", 100, "luxury", 1 / 10, 100 * (1 / 10), 100 + 100 * (1 / 10)⟩ ∧
    report_rate [("standard", (1 : ℚ) / 10)] "luxury" = 0 :=
  category_fallback [("standard", (1 : ℚ) / 10)] (1 / 10) (1 / 10) 100 none "100" "luxury"
    (by simp +decide [parseFloat, stripSign, splitOnDot, parseDigits, digitsToNat])
    (by decide)
    rfl

/-- C10: `get_tax_status` answers Taxable exactly for INDIA
(case-insensitively) with rate strictly above 2000, and for positive rate
and positive quantity `calculate_tax_amount` is non-zero exactly when
`get_tax_status` answers Taxable on the same rate and country. -/
theorem tax_status_characterisation (rate : ℚ) (qty : ℤ) (cc : String) :
    (get_tax_status rate cc = "Taxable" ↔ upper cc = "INDIA" ∧ 2000 < rate) ∧
    (0 < rate → 0 < qty →
      (calculate_tax_amount rate qty cc ≠ 0 ↔ get_tax_status rate cc = "Taxable")) := by
  have hstat : get_tax_status rate cc = "Taxable" ↔ upper cc = "INDIA" ∧ 2000 < rate := by
    by_cases h1 : upper cc = "INDIA"
    · by_cases h2 : (2000 : ℚ) < rate
      · simp [get_tax_status, h1, INDIA_TAX_THRESHOLD, gt_iff_lt, h2]
      · simp [get_tax_status, h1, INDIA_TAX_THRESHOLD, gt_iff_lt, h2]
    · simp [get_tax_status, h1]
  refine ⟨hstat, fun hr hq => ?_⟩
  have key : upper cc = "INDIA" ∧ 2000 < rate → calculate_tax_amount rate qty cc ≠ 0 := by
    rintro ⟨h1, h2⟩
    have heval : calculate_tax_amount rate qty cc = round2 (rate * qty * (1 / 10)) := by
      simp [calculate_tax_amount, h1, INDIA_TAX_THRESHOLD, INDIA_TAX_RATE, gt_iff_lt, h2]
    have hq1 : (1 : ℚ) ≤ (qty : ℚ) := by exact_mod_cast hq
    have harg : (200 : ℚ) ≤ rate * qty * (1 / 10) := by nlinarith
    have hge := round2_ge (rate * qty * (1 / 10)) 200 (by exact_mod_cast harg)
    rw [heval]
    intro h0
    rw [h0] at hge
    norm_num at hge
  have key2 : ¬(upper cc = "INDIA" ∧ 2000 < rate) → calculate_tax_amount rate qty cc = 0 := by
    intro h
    by_cases h1 : upper cc = "INDIA"
    · have h2 : ¬ INDIA_TAX_THRESHOLD < rate := by
        rw [INDIA_TAX_THRESHOLD]
        exact fun hlt => h ⟨h1, hlt⟩
      simp [calculate_tax_amount, h1, gt_iff_lt, h2, round2_zero]
    · simp [calculate_tax_amount, h1, round2_zero]
  constructor
  · intro hne
    exact hstat.mpr (by_contra fun hc => hne (key2 hc))
  · intro htax
    exact key (hstat.mp htax)

end TaxMaster

